import Mathlib

/-!
# Input hooks of the Injectable Generic Camera System (Titanfall 2 camera)

A shallow embedding of `InputHooker.cpp` (namespace `IGCS::InputHooker`).

* Every detour is a function of the values it reads: the mode flags, the original
  entry point it forwards to, its arguments and the memory its pointer arguments
  address.  It yields the value returned to the host, the memory afterwards and the
  list of external calls it made, in program order.
* Pointers and window handles are addresses (`Ptr`), `0` being `nullptr`.  A write
  through `nullptr` faults: the detour then yields `none`.
* `BOOL` is the C `int`: `FALSE` is `0`, `TRUE` is `1`, and `!b` holds exactly when
  `b` is `0`.  `DWORD`, `UINT` and `WPARAM` are naturals, `int`, `LONG` and `LPARAM`
  are integers.
-/

namespace IGCS.InputHooker

/-! ## Windows data types used by the hooks -/

/-- An address; `0` is `nullptr`. -/
abbrev Ptr := Nat

/-- The C `BOOL` of the Windows headers, an `int`. -/
abbrev BOOL := Int

/-- `FALSE` of the Windows headers. -/
def FALSE : BOOL := 0

/-- `TRUE` of the Windows headers. -/
def TRUE : BOOL := 1

/-- `WM_NULL` of `WinUser.h`. -/
def WM_NULL : Nat := 0x0000

/-- `WM_MOUSEMOVE` of `WinUser.h`. -/
def WM_MOUSEMOVE : Nat := 0x0200

/-- `PM_REMOVE` of `WinUser.h`. -/
def PM_REMOVE : Nat := 0x0001

/-- The `XINPUT_GAMEPAD` record of `XInput.h`. -/
structure XINPUT_GAMEPAD where
  wButtons : Nat
  bLeftTrigger : Nat
  bRightTrigger : Nat
  sThumbLX : Int
  sThumbLY : Int
  sThumbRX : Int
  sThumbRY : Int
  deriving DecidableEq, Repr

/-- The `XINPUT_STATE` record of `XInput.h`. -/
structure XINPUT_STATE where
  dwPacketNumber : Nat
  Gamepad : XINPUT_GAMEPAD
  deriving DecidableEq, Repr

/-- The record `ZeroMemory(pState, sizeof(XINPUT_STATE))` leaves behind. -/
def zeroState : XINPUT_STATE :=
  { dwPacketNumber := 0
    Gamepad :=
      { wButtons := 0, bLeftTrigger := 0, bRightTrigger := 0,
        sThumbLX := 0, sThumbLY := 0, sThumbRX := 0, sThumbRY := 0 } }

/-- The memory holding `XINPUT_STATE` records, by address. -/
abbrev XMem := Ptr → XINPUT_STATE

/-- The `POINT` record of `windef.h`. -/
structure POINT where
  x : Int
  y : Int
  deriving DecidableEq, Repr

/-- The `MSG` record of `WinUser.h`. -/
structure MSG where
  hwnd : Ptr
  message : Nat
  wParam : Nat
  lParam : Int
  time : Nat
  pt : POINT
  deriving DecidableEq, Repr

/-! ## Mode flags read by the hooks -/

/-- The values the detours read on each call: `g_cameraEnabled`,
`Globals::instance().inputBlocked()`, `Globals::instance().controllerControlsCamera()`,
`Globals::instance().keyboardMouseControlCamera()` and
`OverlayControl::isMainMenuVisible()`. -/
structure ModeFlags where
  g_cameraEnabled : Bool
  inputBlocked : Bool
  controllerControlsCamera : Bool
  keyboardMouseControlCamera : Bool
  isMainMenuVisible : Bool
  deriving DecidableEq, Repr

/-- The condition of lines 164, 174, 183, 194 and 212:
`(inputBlocked() && keyboardMouseControlCamera()) || isMainMenuVisible()`. -/
def suppressKeyboardMouse (g : ModeFlags) : Bool :=
  (g.inputBlocked && g.keyboardMouseControlCamera) || g.isMainMenuVisible

/-! ## External calls made by the detours -/

/-- One external call made by a detour: an original entry point with the arguments
passed (a pointer to a `MSG` is recorded by the record the buffer holds at the call),
`ZeroMemory`, the critical section, or `Input::handleMessage`. -/
inductive Call where
  | hookedXInputGetState (dwUserIndex : Nat) (pState : Ptr)
  | ZeroMemory (p : Ptr)
  | hookedGetMessageA (lpMsg : MSG) (hWnd : Ptr) (wMsgFilterMin wMsgFilterMax : Nat)
  | hookedGetMessageW (lpMsg : MSG) (hWnd : Ptr) (wMsgFilterMin wMsgFilterMax : Nat)
  | hookedPeekMessageA (lpMsg : MSG) (hWnd : Ptr)
      (wMsgFilterMin wMsgFilterMax wRemoveMsg : Nat)
  | hookedPeekMessageW (lpMsg : MSG) (hWnd : Ptr)
      (wMsgFilterMin wMsgFilterMax wRemoveMsg : Nat)
  | hookedPostMessageA (hWnd : Ptr) (Msg : Nat) (wParam : Nat) (lParam : Int)
  | hookedPostMessageW (hWnd : Ptr) (Msg : Nat) (wParam : Nat) (lParam : Int)
  | hookedSetCursorPos (X Y : Int)
  | hookedGetCursorPos (lpPoint : Ptr)
  | EnterCriticalSection
  | handleMessage (lpMsg : MSG)
  | LeaveCriticalSection
  deriving DecidableEq, Repr

/-! ## `detourXInputGetState` (lines 94-108) -/

/-- What `detourXInputGetState` leaves behind: the returned `DWORD`, the memory and the
external calls made. -/
structure XInputResult where
  toReturn : Nat
  mem : XMem
  calls : List Call

/-- Lines 94-108.  `gamePadState` is `Globals::instance().gamePad().getState()`, the
address of the camera's own gamepad state; `hookedXInputGetState` is the original,
which returns a `DWORD` and may write memory.  `ZeroMemory` on line 104 writes through
`pState` without a null test, so on `nullptr` the call faults there and nothing is
returned: `none`. -/
def detourXInputGetState (g : ModeFlags) (gamePadState : Ptr)
    (hookedXInputGetState : Nat → Ptr → XMem → Nat × XMem)
    (dwUserIndex : Nat) (pState : Ptr) (mem : XMem) : Option XInputResult :=
  let r := hookedXInputGetState dwUserIndex pState mem
  let toReturn := r.1
  if g.g_cameraEnabled && pState != gamePadState then
    if g.inputBlocked && g.controllerControlsCamera then
      if pState = 0 then
        none
      else
        some
          { toReturn := toReturn
            mem := Function.update r.2 pState zeroState
            calls := [Call.hookedXInputGetState dwUserIndex pState, Call.ZeroMemory pState] }
    else
      some
        { toReturn := toReturn, mem := r.2,
          calls := [Call.hookedXInputGetState dwUserIndex pState] }
  else
    some
      { toReturn := toReturn, mem := r.2,
        calls := [Call.hookedXInputGetState dwUserIndex pState] }

/-! ## `processMessage` (lines 206-218) -/

set_option linter.unusedVariables false in
/-- Lines 206-218.  `lpMsg` is the record the caller's buffer holds on entry;
`handleMessage` is `Input::handleMessage`, which reports whether it handled the message
and leaves the buffer holding the second component.  The flags are read after the
classifier returned.  The result is the record in the buffer afterwards and the
external calls made. -/
def processMessage (g : ModeFlags) (handleMessage : MSG → Bool × MSG)
    (lpMsg : MSG) (removeIfRequired : Bool) : MSG × List Call :=
  if lpMsg.hwnd != 0 then
    let r := handleMessage lpMsg
    if r.1 then
      if (g.inputBlocked && g.keyboardMouseControlCamera) || g.isMainMenuVisible then
        ({ r.2 with message := WM_NULL },
          [Call.EnterCriticalSection, Call.handleMessage lpMsg, Call.LeaveCriticalSection])
      else
        (r.2, [Call.EnterCriticalSection, Call.handleMessage lpMsg, Call.LeaveCriticalSection])
    else
      (r.2, [Call.EnterCriticalSection, Call.handleMessage lpMsg, Call.LeaveCriticalSection])
  else
    (lpMsg, [Call.EnterCriticalSection, Call.LeaveCriticalSection])

/-! ## Message retrieval (lines 112-159) -/

/-- What a message-retrieval detour leaves behind: the returned `BOOL`, the record in
the caller's buffer and the external calls made. -/
structure MsgResult where
  ret : BOOL
  lpMsg : MSG
  calls : List Call
  deriving DecidableEq, Repr

/-- Lines 112-121.  The original returns a `BOOL` and the record it leaves in the
buffer. -/
def detourGetMessageA (g : ModeFlags) (handleMessage : MSG → Bool × MSG)
    (hookedGetMessageA : MSG → Ptr → Nat → Nat → BOOL × MSG)
    (lpMsg : MSG) (hWnd : Ptr) (wMsgFilterMin wMsgFilterMax : Nat) : MsgResult :=
  let r := hookedGetMessageA lpMsg hWnd wMsgFilterMin wMsgFilterMax
  if r.1 == 0 then
    { ret := FALSE, lpMsg := r.2,
      calls := [Call.hookedGetMessageA lpMsg hWnd wMsgFilterMin wMsgFilterMax] }
  else
    let p := processMessage g handleMessage r.2 true
    { ret := TRUE, lpMsg := p.1,
      calls := Call.hookedGetMessageA lpMsg hWnd wMsgFilterMin wMsgFilterMax :: p.2 }

/-- Lines 125-134. -/
def detourGetMessageW (g : ModeFlags) (handleMessage : MSG → Bool × MSG)
    (hookedGetMessageW : MSG → Ptr → Nat → Nat → BOOL × MSG)
    (lpMsg : MSG) (hWnd : Ptr) (wMsgFilterMin wMsgFilterMax : Nat) : MsgResult :=
  let r := hookedGetMessageW lpMsg hWnd wMsgFilterMin wMsgFilterMax
  if r.1 == 0 then
    { ret := FALSE, lpMsg := r.2,
      calls := [Call.hookedGetMessageW lpMsg hWnd wMsgFilterMin wMsgFilterMax] }
  else
    let p := processMessage g handleMessage r.2 true
    { ret := TRUE, lpMsg := p.1,
      calls := Call.hookedGetMessageW lpMsg hWnd wMsgFilterMin wMsgFilterMax :: p.2 }

/-- Lines 138-147.  The `bool` argument of `processMessage` is
`wRemoveMsg & PM_REMOVE`, true when non-zero. -/
def detourPeekMessageA (g : ModeFlags) (handleMessage : MSG → Bool × MSG)
    (hookedPeekMessageA : MSG → Ptr → Nat → Nat → Nat → BOOL × MSG)
    (lpMsg : MSG) (hWnd : Ptr) (wMsgFilterMin wMsgFilterMax wRemoveMsg : Nat) : MsgResult :=
  let r := hookedPeekMessageA lpMsg hWnd wMsgFilterMin wMsgFilterMax wRemoveMsg
  if r.1 == 0 then
    { ret := FALSE, lpMsg := r.2,
      calls := [Call.hookedPeekMessageA lpMsg hWnd wMsgFilterMin wMsgFilterMax wRemoveMsg] }
  else
    let p := processMessage g handleMessage r.2 ((wRemoveMsg &&& PM_REMOVE) != 0)
    { ret := TRUE, lpMsg := p.1,
      calls :=
        Call.hookedPeekMessageA lpMsg hWnd wMsgFilterMin wMsgFilterMax wRemoveMsg :: p.2 }

/-- Lines 150-159. -/
def detourPeekMessageW (g : ModeFlags) (handleMessage : MSG → Bool × MSG)
    (hookedPeekMessageW : MSG → Ptr → Nat → Nat → Nat → BOOL × MSG)
    (lpMsg : MSG) (hWnd : Ptr) (wMsgFilterMin wMsgFilterMax wRemoveMsg : Nat) : MsgResult :=
  let r := hookedPeekMessageW lpMsg hWnd wMsgFilterMin wMsgFilterMax wRemoveMsg
  if r.1 == 0 then
    { ret := FALSE, lpMsg := r.2,
      calls := [Call.hookedPeekMessageW lpMsg hWnd wMsgFilterMin wMsgFilterMax wRemoveMsg] }
  else
    let p := processMessage g handleMessage r.2 ((wRemoveMsg &&& PM_REMOVE) != 0)
    { ret := TRUE, lpMsg := p.1,
      calls :=
        Call.hookedPeekMessageW lpMsg hWnd wMsgFilterMin wMsgFilterMax wRemoveMsg :: p.2 }

/-! ## Message posting (lines 162-179) -/

/-- What a posting detour leaves behind: the returned `BOOL` and the external calls
made. -/
structure PostResult where
  ret : BOOL
  calls : List Call
  deriving DecidableEq, Repr

/-- Lines 162-169.  The second parameter, named `wMsgFilterMin` in the source, is the
message identifier. -/
def detourPostMessageA (g : ModeFlags) (hookedPostMessageA : Ptr → Nat → Nat → Int → BOOL)
    (hWnd : Ptr) (wMsgFilterMin : Nat) (wParam : Nat) (lParam : Int) : PostResult :=
  if wMsgFilterMin == WM_MOUSEMOVE &&
      ((g.inputBlocked && g.keyboardMouseControlCamera) || g.isMainMenuVisible) then
    { ret := TRUE, calls := [] }
  else
    { ret := hookedPostMessageA hWnd wMsgFilterMin wParam lParam,
      calls := [Call.hookedPostMessageA hWnd wMsgFilterMin wParam lParam] }

/-- Lines 172-179. -/
def detourPostMessageW (g : ModeFlags) (hookedPostMessageW : Ptr → Nat → Nat → Int → BOOL)
    (hWnd : Ptr) (wMsgFilterMin : Nat) (wParam : Nat) (lParam : Int) : PostResult :=
  if wMsgFilterMin == WM_MOUSEMOVE &&
      ((g.inputBlocked && g.keyboardMouseControlCamera) || g.isMainMenuVisible) then
    { ret := TRUE, calls := [] }
  else
    { ret := hookedPostMessageW hWnd wMsgFilterMin wParam lParam,
      calls := [Call.hookedPostMessageW hWnd wMsgFilterMin wParam lParam] }

/-! ## Cursor position (lines 181-203) -/

/-- The memory holding `POINT` records, by address. -/
abbrev PMem := Ptr → POINT

/-- The initial value of `_lastCursorPositionWhenBlocked` (line 74). -/
def initialCursorPosition : POINT := { x := 0, y := 0 }

/-- What `detourSetCursorPos` leaves behind: the returned `BOOL`, the value of
`_lastCursorPositionWhenBlocked` and the external calls made. -/
structure SetCursorResult where
  ret : BOOL
  lastCursorPositionWhenBlocked : POINT
  calls : List Call
  deriving DecidableEq, Repr

/-- Lines 181-190.  `lastCursorPositionWhenBlocked` is the value of the global
`_lastCursorPositionWhenBlocked` on entry. -/
def detourSetCursorPos (g : ModeFlags) (hookedSetCursorPos : Int → Int → BOOL)
    (X Y : Int) (lastCursorPositionWhenBlocked : POINT) : SetCursorResult :=
  if (g.inputBlocked && g.keyboardMouseControlCamera) || g.isMainMenuVisible then
    { ret := TRUE
      lastCursorPositionWhenBlocked := { x := X, y := Y }
      calls := [] }
  else
    { ret := hookedSetCursorPos X Y
      lastCursorPositionWhenBlocked := lastCursorPositionWhenBlocked
      calls := [Call.hookedSetCursorPos X Y] }

/-- What `detourGetCursorPos` leaves behind: the returned `BOOL`, the memory, the value
of `_lastCursorPositionWhenBlocked` and the external calls made. -/
structure GetCursorResult where
  ret : BOOL
  mem : PMem
  lastCursorPositionWhenBlocked : POINT
  calls : List Call

/-- Lines 192-203.  The original returns a `BOOL` and may write memory. -/
def detourGetCursorPos (g : ModeFlags) (hookedGetCursorPos : Ptr → PMem → BOOL × PMem)
    (lpPoint : Ptr) (mem : PMem) (lastCursorPositionWhenBlocked : POINT) : GetCursorResult :=
  if (g.inputBlocked && g.keyboardMouseControlCamera) || g.isMainMenuVisible then
    if 0 != lpPoint then
      { ret := TRUE
        mem := Function.update mem lpPoint lastCursorPositionWhenBlocked
        lastCursorPositionWhenBlocked := lastCursorPositionWhenBlocked
        calls := [] }
    else
      { ret := TRUE, mem := mem
        lastCursorPositionWhenBlocked := lastCursorPositionWhenBlocked
        calls := [] }
  else
    let r := hookedGetCursorPos lpPoint mem
    { ret := r.1, mem := r.2
      lastCursorPositionWhenBlocked := lastCursorPositionWhenBlocked
      calls := [Call.hookedGetCursorPos lpPoint] }

/-! ## `setInputHooks` (lines 223-290) -/

/-- The `MH_STATUS` of `MinHook.h`, by its numeric value. -/
abbrev MH_STATUS := Int

/-- `MH_OK` of `MinHook.h`. -/
def MH_OK : MH_STATUS := 0

/-- The nine detours handed to MinHook. -/
inductive Detour where
  | detourXInputGetState
  | detourGetMessageA
  | detourGetMessageW
  | detourPeekMessageA
  | detourPeekMessageW
  | detourPostMessageA
  | detourPostMessageW
  | detourSetCursorPos
  | detourGetCursorPos
  deriving DecidableEq, Repr

/-- One external call made by `setInputHooks`. -/
inductive SetupCall where
  | InitializeCriticalSectionAndSpinCount (dwSpinCount : Nat)
  | MH_CreateHookApi (pszModule pszProcName : String) (pDetour : Detour)
  | MH_EnableHookAll
  | logError (line : String)
  | logDebug (line : String)
  | logLine (line : String)
  deriving DecidableEq, Repr

/-- Lines 223-290.  `createHookApi` is the status `MH_CreateHookApi` returns for a
module and an exported name, `enableHook` the status of `MH_EnableHook(MH_ALL_HOOKS)`.
The result is the list of external calls made, in program order. -/
def setInputHooks (createHookApi : String → String → MH_STATUS) (enableHook : MH_STATUS) :
    List SetupCall :=
  [SetupCall.InitializeCriticalSectionAndSpinCount 0x400]
  ++ [SetupCall.MH_CreateHookApi "xinput1_3" "XInputGetState" Detour.detourXInputGetState]
  ++ (if createHookApi "xinput1_3" "XInputGetState" != MH_OK
        then [SetupCall.logError "Hooking XInput1_3 failed!"] else [])
  ++ [SetupCall.logDebug "Hook set to XInputSetState"]
  ++ [SetupCall.MH_CreateHookApi "user32" "GetMessageA" Detour.detourGetMessageA]
  ++ (if createHookApi "user32" "GetMessageA" != MH_OK
        then [SetupCall.logError "Hooking GetMessageA failed!"] else [])
  ++ [SetupCall.logDebug "Hook set to GetMessageA"]
  ++ [SetupCall.MH_CreateHookApi "user32" "GetMessageW" Detour.detourGetMessageW]
  ++ (if createHookApi "user32" "GetMessageW" != MH_OK
        then [SetupCall.logError "Hooking GetMessageW failed!"] else [])
  ++ [SetupCall.logDebug "Hook set to GetMessageW"]
  ++ [SetupCall.MH_CreateHookApi "user32" "PeekMessageA" Detour.detourPeekMessageA]
  ++ (if createHookApi "user32" "PeekMessageA" != MH_OK
        then [SetupCall.logError "Hooking PeekMessageA failed!"] else [])
  ++ [SetupCall.logDebug "Hook set to PeekMessageA"]
  ++ [SetupCall.MH_CreateHookApi "user32" "PeekMessageW" Detour.detourPeekMessageW]
  ++ (if createHookApi "user32" "PeekMessageW" != MH_OK
        then [SetupCall.logError "Hooking PeekMessageW failed!"] else [])
  ++ [SetupCall.logDebug "Hook set to PeekMessageW"]
  ++ [SetupCall.MH_CreateHookApi "user32" "PostMessageA" Detour.detourPostMessageA]
  ++ (if createHookApi "user32" "PostMessageA" != MH_OK
        then [SetupCall.logError "Hooking PostMessageA failed!"] else [])
  ++ [SetupCall.logDebug "Hook set to PostMessageA"]
  ++ [SetupCall.MH_CreateHookApi "user32" "PostMessageW" Detour.detourPostMessageW]
  ++ (if createHookApi "user32" "PostMessageW" != MH_OK
        then [SetupCall.logError "Hooking PostMessageW failed!"] else [])
  ++ [SetupCall.logDebug "Hook set to PostMessageW"]
  ++ [SetupCall.MH_CreateHookApi "user32" "SetCursorPos" Detour.detourSetCursorPos]
  ++ (if createHookApi "user32" "SetCursorPos" != MH_OK
        then [SetupCall.logError "Hooking SetCursorPos failed!"] else [])
  ++ [SetupCall.logDebug "Hook set to SetCursorPos"]
  ++ [SetupCall.MH_CreateHookApi "user32" "GetCursorPos" Detour.detourGetCursorPos]
  ++ (if createHookApi "user32" "GetCursorPos" != MH_OK
        then [SetupCall.logError "Hooking GetCursorPos failed!"] else [])
  ++ [SetupCall.logDebug "Hook set to GetCursorPos"]
  ++ [SetupCall.MH_EnableHookAll]
  ++ (if enableHook == MH_OK
        then [SetupCall.logLine "All hooks enabled."]
        else [SetupCall.logError "Enabling hooks failed."])

/-- The nine installations of `setInputHooks`, in program order: module, exported
name, detour and the error line logged when the installation fails. -/
def hookTable : List (String × String × Detour × String) :=
  [ ("xinput1_3", "XInputGetState", Detour.detourXInputGetState, "Hooking XInput1_3 failed!"),
    ("user32", "GetMessageA", Detour.detourGetMessageA, "Hooking GetMessageA failed!"),
    ("user32", "GetMessageW", Detour.detourGetMessageW, "Hooking GetMessageW failed!"),
    ("user32", "PeekMessageA", Detour.detourPeekMessageA, "Hooking PeekMessageA failed!"),
    ("user32", "PeekMessageW", Detour.detourPeekMessageW, "Hooking PeekMessageW failed!"),
    ("user32", "PostMessageA", Detour.detourPostMessageA, "Hooking PostMessageA failed!"),
    ("user32", "PostMessageW", Detour.detourPostMessageW, "Hooking PostMessageW failed!"),
    ("user32", "SetCursorPos", Detour.detourSetCursorPos, "Hooking SetCursorPos failed!"),
    ("user32", "GetCursorPos", Detour.detourGetCursorPos, "Hooking GetCursorPos failed!") ]

/-- Whether a call of `setInputHooks` goes to MinHook. -/
def SetupCall.isMinHook : SetupCall → Bool
  | SetupCall.MH_CreateHookApi _ _ _ => true
  | SetupCall.MH_EnableHookAll => true
  | _ => false

/-! ## Sample values for the concrete instances -/

/-- A sample message for a window: `WM_KEYDOWN` with the virtual key `VK_INSERT`. -/
def sampleMsg : MSG :=
  { hwnd := 0x1A2B, message := 0x0100, wParam := 0x2D, lParam := 0x01520001,
    time := 1000, pt := { x := 12, y := 34 } }

/-- A sample gamepad report: one button down and the left stick pushed. -/
def sampleState : XINPUT_STATE :=
  { dwPacketNumber := 7
    Gamepad :=
      { wButtons := 0x1000, bLeftTrigger := 0, bRightTrigger := 255,
        sThumbLX := -32768, sThumbLY := 120, sThumbRX := 0, sThumbRY := 0 } }

/-- Camera off, nothing blocked, menu hidden. -/
def modeIdle : ModeFlags :=
  { g_cameraEnabled := false, inputBlocked := false, controllerControlsCamera := false,
    keyboardMouseControlCamera := false, isMainMenuVisible := false }

/-- Camera on, input blocked, keyboard and mouse drive the camera, menu hidden. -/
def modeBlockedKeyboardMouse : ModeFlags :=
  { g_cameraEnabled := true, inputBlocked := true, controllerControlsCamera := false,
    keyboardMouseControlCamera := true, isMainMenuVisible := false }

/-- Input not blocked, menu visible. -/
def modeMenuOnly : ModeFlags :=
  { g_cameraEnabled := false, inputBlocked := false, controllerControlsCamera := false,
    keyboardMouseControlCamera := true, isMainMenuVisible := true }

/-- An original `GetMessage` that reports its error result `-1` and leaves the buffer
as it was. -/
def getMessageError : MSG → Ptr → Nat → Nat → BOOL × MSG :=
  fun m _ _ _ => (-1, m)

/-- An original `PostMessage` that fails (returns `FALSE`). -/
def postMessageFails : Ptr → Nat → Nat → Int → BOOL :=
  fun _ _ _ _ => 0

/-- An original `PostMessage` that succeeds (returns `TRUE`). -/
def postMessageSucceeds : Ptr → Nat → Nat → Int → BOOL :=
  fun _ _ _ _ => 1

/-- An original `XInputGetState` for a slot without a controller: it returns
`ERROR_DEVICE_NOT_CONNECTED` (1167) and writes nothing. -/
def xinputNotConnected : Nat → Ptr → XMem → Nat × XMem :=
  fun _ _ m => (1167, m)

/-- An original `XInputGetState` for a connected controller: it returns `ERROR_SUCCESS`
(0) and writes `sampleState` through `pState`. -/
def xinputConnected : Nat → Ptr → XMem → Nat × XMem :=
  fun _ p m => (0, Function.update m p sampleState)

/-- Camera on, input blocked, the controller drives the camera, menu hidden. -/
def modeBlockedController : ModeFlags :=
  { g_cameraEnabled := true, inputBlocked := true, controllerControlsCamera := true,
    keyboardMouseControlCamera := false, isMainMenuVisible := false }

/-- A `WM_NULL` message posted to a window. -/
def nullMsg : MSG :=
  { hwnd := 0x1A2B, message := WM_NULL, wParam := 0, lParam := 0,
    time := 1000, pt := { x := 12, y := 34 } }

/-- A classifier that handles nothing and leaves the message as it is. -/
def handlesNothing : MSG → Bool × MSG :=
  fun m => (false, m)

/-! ## Theorems -/

/-- C1 fails as stated: with the camera off, a caller's zero-initialised buffer (not the
camera's own, which lives at `0x500`) and no controller in the slot, the original writes
nothing and the buffer ends all-zero although the zeroing condition is false. -/
theorem xinput_all_zero_without_zeroing :
    modeIdle.g_cameraEnabled = false
      ∧ (detourXInputGetState modeIdle 0x500 xinputNotConnected 0 0x900
          (fun _ => zeroState)).map (fun r => (r.calls, r.toReturn, r.mem 0x900))
        = some ([Call.hookedXInputGetState 0 0x900], 1167, zeroState) := by
  refine ⟨rfl, rfl⟩

/-- On a null `pState` the detour faults exactly when it goes on to zero the buffer;
every other call returns. -/
theorem detourXInputGetState_faults_iff (g : ModeFlags) (gamePadState : Ptr)
    (hooked : Nat → Ptr → XMem → Nat × XMem) (dwUserIndex : Nat) (pState : Ptr) (mem : XMem) :
    detourXInputGetState g gamePadState hooked dwUserIndex pState mem = none
      ↔ (pState = 0 ∧ pState ≠ gamePadState ∧ g.g_cameraEnabled = true
          ∧ g.inputBlocked = true ∧ g.controllerControlsCamera = true) := by
  obtain ⟨cam, blk, ctl, kbm, menu⟩ := g
  by_cases h0 : pState = 0 <;> by_cases hp : pState = gamePadState <;>
    cases cam <;> cases blk <;> cases ctl <;> simp [detourXInputGetState, h0, hp]

/-- C1, amended: on a non-null buffer `detourXInputGetState` returns; it calls the
original exactly once, as its first call, and returns what the original returned.  It
zeroes the caller's buffer exactly when the buffer is not the camera's own gamepad state
and the camera is enabled, input is blocked and the controller controls the camera: then
the buffer ends all-zero, and in every other case (the camera's own handle included) it
holds what the original wrote.  So the buffer ends all-zero exactly when that condition
holds or the original itself left it all-zero.  No other address is touched, and menu
visibility does not enter the outcome. -/
theorem detourXInputGetState_zeroes_iff (g : ModeFlags) (gamePadState : Ptr)
    (hooked : Nat → Ptr → XMem → Nat × XMem) (dwUserIndex : Nat) (pState : Ptr) (mem : XMem)
    (h0 : pState ≠ 0) :
    ∃ r : XInputResult,
      detourXInputGetState g gamePadState hooked dwUserIndex pState mem = some r
      ∧ r.calls
        = Call.hookedXInputGetState dwUserIndex pState ::
          (if pState ≠ gamePadState ∧ g.g_cameraEnabled = true ∧ g.inputBlocked = true
                ∧ g.controllerControlsCamera = true
            then [Call.ZeroMemory pState] else [])
      ∧ r.toReturn = (hooked dwUserIndex pState mem).1
      ∧ r.mem pState
        = (if pState ≠ gamePadState ∧ g.g_cameraEnabled = true ∧ g.inputBlocked = true
                ∧ g.controllerControlsCamera = true
            then zeroState else (hooked dwUserIndex pState mem).2 pState)
      ∧ (r.mem pState = zeroState
          ↔ ((pState ≠ gamePadState ∧ g.g_cameraEnabled = true ∧ g.inputBlocked = true
                ∧ g.controllerControlsCamera = true)
              ∨ (hooked dwUserIndex pState mem).2 pState = zeroState))
      ∧ (∀ q : Ptr, q ≠ pState → r.mem q = (hooked dwUserIndex pState mem).2 q)
      ∧ (pState = gamePadState → r.mem = (hooked dwUserIndex pState mem).2)
      ∧ (∀ b : Bool,
          detourXInputGetState { g with isMainMenuVisible := b } gamePadState hooked
              dwUserIndex pState mem = some r) := by
  obtain ⟨cam, blk, ctl, kbm, menu⟩ := g
  by_cases hp : pState = gamePadState
  · refine ⟨{ toReturn := (hooked dwUserIndex pState mem).1
              mem := (hooked dwUserIndex pState mem).2
              calls := [Call.hookedXInputGetState dwUserIndex pState] }, ?_⟩
    cases cam <;> cases blk <;> cases ctl <;> simp [detourXInputGetState, hp]
  · by_cases hz : cam = true ∧ blk = true ∧ ctl = true
    · obtain ⟨rfl, rfl, rfl⟩ := hz
      refine ⟨{ toReturn := (hooked dwUserIndex pState mem).1
                mem := Function.update (hooked dwUserIndex pState mem).2 pState zeroState
                calls := [Call.hookedXInputGetState dwUserIndex pState,
                          Call.ZeroMemory pState] }, ?_⟩
      simp [detourXInputGetState, hp, h0, Function.update_same]
      intro q hq
      simp [Function.update_noteq hq]
    · refine ⟨{ toReturn := (hooked dwUserIndex pState mem).1
                mem := (hooked dwUserIndex pState mem).2
                calls := [Call.hookedXInputGetState dwUserIndex pState] }, ?_⟩
      cases cam <;> cases blk <;> cases ctl <;> simp_all [detourXInputGetState]

/-- C1 amended, at a concrete input: the controller drives the camera and input is
blocked, the host polls slot 0 into its own buffer at `0x900`, and the original writes a
report with a button down; the host is left with an all-zero report. -/
theorem detourXInputGetState_zeroes_iff_witness :
    ∃ r : XInputResult,
      detourXInputGetState modeBlockedController 0x500 xinputConnected 0 0x900
          (fun _ => zeroState) = some r
      ∧ r.calls = [Call.hookedXInputGetState 0 0x900, Call.ZeroMemory 0x900]
      ∧ r.toReturn = 0
      ∧ r.mem 0x900 = zeroState :=
  match detourXInputGetState_zeroes_iff modeBlockedController 0x500 xinputConnected 0 0x900
      (fun _ => zeroState) (by decide) with
  | ⟨r, h, hc, ht, hm, _⟩ => ⟨r, h, hc, ht, hm⟩

/-- Overwriting `message` with `WM_NULL` changes nothing exactly when the message
already carries `WM_NULL`. -/
theorem eq_with_null_iff (m : MSG) :
    m = { m with message := WM_NULL } ↔ m.message = WM_NULL := by
  obtain ⟨hwnd, message, wParam, lParam, time, pt⟩ := m
  simp

/-- C2 fails as stated: a `WM_NULL` message for a window, not handled by the classifier,
comes out equal to the classifier's output with `message` replaced by `WM_NULL`
although the classifier did not report handled. -/
theorem processMessage_null_message_unhandled :
    (handlesNothing nullMsg).1 = false
      ∧ nullMsg.hwnd = 0x1A2B
      ∧ (processMessage modeIdle handlesNothing nullMsg true).2
        = [Call.EnterCriticalSection, Call.handleMessage nullMsg, Call.LeaveCriticalSection]
      ∧ (processMessage modeIdle handlesNothing nullMsg true).1
        = { (handlesNothing nullMsg).2 with message := WM_NULL } := by
  refine ⟨rfl, rfl, rfl, rfl⟩

/-- C2, amended: `processMessage` on a message whose window handle is null does not call
the classifier and leaves the message unchanged.  On any other message it calls the
classifier exactly once, inside the critical section, and overwrites `message` with
`WM_NULL` exactly when the classifier reported handled and the suppression condition
holds; in every other case the message afterwards is the classifier's output itself.
So the message afterwards equals the classifier's output with `message` replaced by
`WM_NULL` exactly when that condition holds or the classifier's output already carries
`WM_NULL`.  Apart from `message` every field is the classifier's. -/
theorem processMessage_neutralizes_iff (g : ModeFlags) (handleMessage : MSG → Bool × MSG)
    (lpMsg : MSG) (removeIfRequired : Bool) :
    (processMessage g handleMessage lpMsg removeIfRequired).2
        = (if lpMsg.hwnd = 0
            then [Call.EnterCriticalSection, Call.LeaveCriticalSection]
            else [Call.EnterCriticalSection, Call.handleMessage lpMsg,
                  Call.LeaveCriticalSection])
      ∧ (processMessage g handleMessage lpMsg removeIfRequired).1
        = (if lpMsg.hwnd = 0 then lpMsg
            else if (handleMessage lpMsg).1 = true ∧ suppressKeyboardMouse g = true
              then { (handleMessage lpMsg).2 with message := WM_NULL }
              else (handleMessage lpMsg).2)
      ∧ (lpMsg.hwnd ≠ 0 →
          ((processMessage g handleMessage lpMsg removeIfRequired).1
              = { (handleMessage lpMsg).2 with message := WM_NULL }
            ↔ (((handleMessage lpMsg).1 = true ∧ suppressKeyboardMouse g = true)
                ∨ (handleMessage lpMsg).2.message = WM_NULL)))
      ∧ { (processMessage g handleMessage lpMsg removeIfRequired).1 with
            message := (if lpMsg.hwnd = 0 then lpMsg else (handleMessage lpMsg).2).message }
        = (if lpMsg.hwnd = 0 then lpMsg else (handleMessage lpMsg).2) := by
  by_cases hw : lpMsg.hwnd = 0
  · obtain ⟨hwnd, message, wParam, lParam, time, pt⟩ := lpMsg
    simp only at hw
    subst hw
    simp [processMessage]
  · by_cases hh : (handleMessage lpMsg).1 = true
    · by_cases hs : suppressKeyboardMouse g = true
      · have hs2 := hs
        simp only [suppressKeyboardMouse] at hs2
        simp [processMessage, hw, hh, hs, hs2]
      · have hs2 := hs
        simp only [suppressKeyboardMouse] at hs2
        simp [processMessage, hw, hh, hs, hs2, eq_with_null_iff]
    · simp [processMessage, hw, hh, eq_with_null_iff]

/-- C3: `detourPostMessageA` and `detourPostMessageW` return `TRUE` without calling the
original exactly when the message is `WM_MOUSEMOVE` and the suppression condition
holds; in every other case they call the original once with the same four arguments
and return its result.  With input blocked, keyboard and mouse controlling the camera
and the menu hidden, a posted `WM_MOUSEMOVE` returns `TRUE` without a call. -/
theorem detourPostMessage_swallows_iff (g : ModeFlags)
    (hookedA hookedW : Ptr → Nat → Nat → Int → BOOL)
    (hWnd : Ptr) (Msg wParam : Nat) (lParam : Int) :
    (((detourPostMessageA g hookedA hWnd Msg wParam lParam).calls = []
          ∧ (detourPostMessageA g hookedA hWnd Msg wParam lParam).ret = TRUE)
        ↔ (Msg = WM_MOUSEMOVE ∧ suppressKeyboardMouse g = true))
      ∧ detourPostMessageA g hookedA hWnd Msg wParam lParam
        = (if Msg = WM_MOUSEMOVE ∧ suppressKeyboardMouse g = true
            then { ret := TRUE, calls := [] }
            else { ret := hookedA hWnd Msg wParam lParam,
                   calls := [Call.hookedPostMessageA hWnd Msg wParam lParam] })
      ∧ (((detourPostMessageW g hookedW hWnd Msg wParam lParam).calls = []
          ∧ (detourPostMessageW g hookedW hWnd Msg wParam lParam).ret = TRUE)
        ↔ (Msg = WM_MOUSEMOVE ∧ suppressKeyboardMouse g = true))
      ∧ detourPostMessageW g hookedW hWnd Msg wParam lParam
        = (if Msg = WM_MOUSEMOVE ∧ suppressKeyboardMouse g = true
            then { ret := TRUE, calls := [] }
            else { ret := hookedW hWnd Msg wParam lParam,
                   calls := [Call.hookedPostMessageW hWnd Msg wParam lParam] })
      ∧ (∀ cam ctl : Bool,
          detourPostMessageA
              { g_cameraEnabled := cam, inputBlocked := true, controllerControlsCamera := ctl,
                keyboardMouseControlCamera := true, isMainMenuVisible := false }
              hookedA hWnd WM_MOUSEMOVE wParam lParam = { ret := TRUE, calls := [] }
          ∧ detourPostMessageW
              { g_cameraEnabled := cam, inputBlocked := true, controllerControlsCamera := ctl,
                keyboardMouseControlCamera := true, isMainMenuVisible := false }
              hookedW hWnd WM_MOUSEMOVE wParam lParam = { ret := TRUE, calls := [] }) := by
  have key : ∀ c : Prop, ∀ [Decidable c], ∀ (h : Ptr → Nat → Nat → Int → BOOL) (k : Call),
      (((if c then ({ ret := TRUE, calls := [] } : PostResult)
            else { ret := h hWnd Msg wParam lParam, calls := [k] }).calls = []
          ∧ (if c then ({ ret := TRUE, calls := [] } : PostResult)
            else { ret := h hWnd Msg wParam lParam, calls := [k] }).ret = TRUE) ↔ c) := by
    intro c _ h k
    by_cases hc : c <;> simp [hc]
  have eA : detourPostMessageA g hookedA hWnd Msg wParam lParam
      = (if Msg = WM_MOUSEMOVE ∧ suppressKeyboardMouse g = true
          then { ret := TRUE, calls := [] }
          else { ret := hookedA hWnd Msg wParam lParam,
                 calls := [Call.hookedPostMessageA hWnd Msg wParam lParam] }) := by
    simp [detourPostMessageA, suppressKeyboardMouse]
  have eW : detourPostMessageW g hookedW hWnd Msg wParam lParam
      = (if Msg = WM_MOUSEMOVE ∧ suppressKeyboardMouse g = true
          then { ret := TRUE, calls := [] }
          else { ret := hookedW hWnd Msg wParam lParam,
                 calls := [Call.hookedPostMessageW hWnd Msg wParam lParam] }) := by
    simp [detourPostMessageW, suppressKeyboardMouse]
  refine ⟨?_, eA, ?_, eW, ?_⟩
  · rw [eA]; exact key _ hookedA _
  · rw [eW]; exact key _ hookedW _
  · intro cam ctl
    simp [detourPostMessageA, detourPostMessageW]

/-- C4: when the suppression condition holds at both calls, `detourSetCursorPos X Y`
followed by `detourGetCursorPos` on a non-null pointer returns `TRUE` twice, leaves
exactly `(X, Y)` in the caller's `POINT`, and calls neither original. -/
theorem cursor_set_then_get (g₁ g₂ : ModeFlags) (hookedSet : Int → Int → BOOL)
    (hookedGet : Ptr → PMem → BOOL × PMem) (X Y : Int) (lpPoint : Ptr) (mem : PMem)
    (last : POINT) (h₁ : suppressKeyboardMouse g₁ = true)
    (h₂ : suppressKeyboardMouse g₂ = true) (hp : lpPoint ≠ 0) :
    (detourSetCursorPos g₁ hookedSet X Y last).ret = TRUE
      ∧ (detourSetCursorPos g₁ hookedSet X Y last).calls = []
      ∧ (detourGetCursorPos g₂ hookedGet lpPoint mem
          (detourSetCursorPos g₁ hookedSet X Y last).lastCursorPositionWhenBlocked).ret = TRUE
      ∧ (detourGetCursorPos g₂ hookedGet lpPoint mem
          (detourSetCursorPos g₁ hookedSet X Y last).lastCursorPositionWhenBlocked).calls = []
      ∧ (detourGetCursorPos g₂ hookedGet lpPoint mem
          (detourSetCursorPos g₁ hookedSet X Y last).lastCursorPositionWhenBlocked).mem lpPoint
        = { x := X, y := Y } := by
  simp only [suppressKeyboardMouse] at h₁ h₂
  have hp2 : ¬ (0 = lpPoint) := fun h => hp h.symm
  simp [detourSetCursorPos, detourGetCursorPos, h₁, h₂, hp2]

/-- C4 at a concrete input: blocked keyboard/mouse mode for the set, menu-only mode for
the get, coordinates `(-5, 77)`, buffer at address `64`. -/
theorem cursor_set_then_get_witness :
    suppressKeyboardMouse modeBlockedKeyboardMouse = true
      ∧ suppressKeyboardMouse modeMenuOnly = true
      ∧ (detourGetCursorPos modeMenuOnly (fun _ m => (0, m)) 64 (fun _ => ⟨1, 2⟩)
          (detourSetCursorPos modeBlockedKeyboardMouse (fun _ _ => 0) (-5) 77
            initialCursorPosition).lastCursorPositionWhenBlocked).mem 64
        = { x := -5, y := 77 } :=
  ⟨by decide, by decide,
    (cursor_set_then_get modeBlockedKeyboardMouse modeMenuOnly (fun _ _ => 0)
      (fun _ m => (0, m)) (-5) 77 64 (fun _ => ⟨1, 2⟩) initialCursorPosition
      (by decide) (by decide) (by decide)).2.2.2.2⟩

/-- C5: when the original reports no message (returns `FALSE`), each of
`detourGetMessageA`, `detourGetMessageW`, `detourPeekMessageA` and `detourPeekMessageW`
returns `FALSE`, leaves the buffer as the original left it, and makes no call besides
the one to the original: the critical section is not entered and the classifier is not
called, whatever the mode flags. -/
theorem no_message_skips_processMessage (g : ModeFlags) (handleMessage : MSG → Bool × MSG)
    (hookedGetA hookedGetW : MSG → Ptr → Nat → Nat → BOOL × MSG)
    (hookedPeekA hookedPeekW : MSG → Ptr → Nat → Nat → Nat → BOOL × MSG)
    (lpMsg : MSG) (hWnd : Ptr) (wMsgFilterMin wMsgFilterMax wRemoveMsg : Nat)
    (hGA : (hookedGetA lpMsg hWnd wMsgFilterMin wMsgFilterMax).1 = FALSE)
    (hGW : (hookedGetW lpMsg hWnd wMsgFilterMin wMsgFilterMax).1 = FALSE)
    (hPA : (hookedPeekA lpMsg hWnd wMsgFilterMin wMsgFilterMax wRemoveMsg).1 = FALSE)
    (hPW : (hookedPeekW lpMsg hWnd wMsgFilterMin wMsgFilterMax wRemoveMsg).1 = FALSE) :
    detourGetMessageA g handleMessage hookedGetA lpMsg hWnd wMsgFilterMin wMsgFilterMax
        = { ret := FALSE, lpMsg := (hookedGetA lpMsg hWnd wMsgFilterMin wMsgFilterMax).2,
            calls := [Call.hookedGetMessageA lpMsg hWnd wMsgFilterMin wMsgFilterMax] }
      ∧ detourGetMessageW g handleMessage hookedGetW lpMsg hWnd wMsgFilterMin wMsgFilterMax
        = { ret := FALSE, lpMsg := (hookedGetW lpMsg hWnd wMsgFilterMin wMsgFilterMax).2,
            calls := [Call.hookedGetMessageW lpMsg hWnd wMsgFilterMin wMsgFilterMax] }
      ∧ detourPeekMessageA g handleMessage hookedPeekA lpMsg hWnd wMsgFilterMin wMsgFilterMax
          wRemoveMsg
        = { ret := FALSE
            lpMsg := (hookedPeekA lpMsg hWnd wMsgFilterMin wMsgFilterMax wRemoveMsg).2
            calls :=
              [Call.hookedPeekMessageA lpMsg hWnd wMsgFilterMin wMsgFilterMax wRemoveMsg] }
      ∧ detourPeekMessageW g handleMessage hookedPeekW lpMsg hWnd wMsgFilterMin wMsgFilterMax
          wRemoveMsg
        = { ret := FALSE
            lpMsg := (hookedPeekW lpMsg hWnd wMsgFilterMin wMsgFilterMax wRemoveMsg).2
            calls :=
              [Call.hookedPeekMessageW lpMsg hWnd wMsgFilterMin wMsgFilterMax wRemoveMsg] }
      ∧ (∀ r ∈ [detourGetMessageA g handleMessage hookedGetA lpMsg hWnd wMsgFilterMin
                  wMsgFilterMax,
                detourGetMessageW g handleMessage hookedGetW lpMsg hWnd wMsgFilterMin
                  wMsgFilterMax,
                detourPeekMessageA g handleMessage hookedPeekA lpMsg hWnd wMsgFilterMin
                  wMsgFilterMax wRemoveMsg,
                detourPeekMessageW g handleMessage hookedPeekW lpMsg hWnd wMsgFilterMin
                  wMsgFilterMax wRemoveMsg],
          Call.EnterCriticalSection ∉ r.calls ∧ ∀ m : MSG, Call.handleMessage m ∉ r.calls) := by
  simp only [FALSE] at hGA hGW hPA hPW
  have eGA : detourGetMessageA g handleMessage hookedGetA lpMsg hWnd wMsgFilterMin wMsgFilterMax
      = { ret := FALSE, lpMsg := (hookedGetA lpMsg hWnd wMsgFilterMin wMsgFilterMax).2,
          calls := [Call.hookedGetMessageA lpMsg hWnd wMsgFilterMin wMsgFilterMax] } := by
    simp [detourGetMessageA, hGA]
  have eGW : detourGetMessageW g handleMessage hookedGetW lpMsg hWnd wMsgFilterMin wMsgFilterMax
      = { ret := FALSE, lpMsg := (hookedGetW lpMsg hWnd wMsgFilterMin wMsgFilterMax).2,
          calls := [Call.hookedGetMessageW lpMsg hWnd wMsgFilterMin wMsgFilterMax] } := by
    simp [detourGetMessageW, hGW]
  have ePA : detourPeekMessageA g handleMessage hookedPeekA lpMsg hWnd wMsgFilterMin
        wMsgFilterMax wRemoveMsg
      = { ret := FALSE
          lpMsg := (hookedPeekA lpMsg hWnd wMsgFilterMin wMsgFilterMax wRemoveMsg).2
          calls :=
            [Call.hookedPeekMessageA lpMsg hWnd wMsgFilterMin wMsgFilterMax wRemoveMsg] } := by
    simp [detourPeekMessageA, hPA]
  have ePW : detourPeekMessageW g handleMessage hookedPeekW lpMsg hWnd wMsgFilterMin
        wMsgFilterMax wRemoveMsg
      = { ret := FALSE
          lpMsg := (hookedPeekW lpMsg hWnd wMsgFilterMin wMsgFilterMax wRemoveMsg).2
          calls :=
            [Call.hookedPeekMessageW lpMsg hWnd wMsgFilterMin wMsgFilterMax wRemoveMsg] } := by
    simp [detourPeekMessageW, hPW]
  refine ⟨eGA, eGW, ePA, ePW, ?_⟩
  rw [eGA, eGW, ePA, ePW]
  simp

/-- C5 at a concrete input: an empty queue under blocked keyboard/mouse mode, with a
classifier that would handle everything; a removing peek (`PM_REMOVE`). -/
theorem no_message_skips_processMessage_witness :
    detourGetMessageA modeBlockedKeyboardMouse (fun m => (true, m))
        (fun m _ _ _ => (0, m)) sampleMsg 0 0 0
      = { ret := FALSE, lpMsg := sampleMsg,
          calls := [Call.hookedGetMessageA sampleMsg 0 0 0] }
    ∧ detourPeekMessageW modeBlockedKeyboardMouse (fun m => (true, m))
        (fun m _ _ _ _ => (0, m)) sampleMsg 0 0 0 1
      = { ret := FALSE, lpMsg := sampleMsg,
          calls := [Call.hookedPeekMessageW sampleMsg 0 0 0 1] } :=
  have h := no_message_skips_processMessage modeBlockedKeyboardMouse (fun m => (true, m))
    (fun m _ _ _ => (0, m)) (fun m _ _ _ => (0, m)) (fun m _ _ _ _ => (0, m))
    (fun m _ _ _ _ => (0, m)) sampleMsg 0 0 0 1 rfl rfl rfl rfl
  ⟨h.1, h.2.2.2.1⟩

/-- C6 fails as stated: with `GetMessageA` reporting its error result `-1`,
`detourGetMessageA` calls the original and returns `TRUE` (`1`) to the host. -/
theorem getMessage_error_result_not_propagated :
    (getMessageError sampleMsg 0 0 0).1 = -1
      ∧ (detourGetMessageA modeIdle (fun m => (false, m)) getMessageError
          sampleMsg 0 0 0).calls.head?
        = some (Call.hookedGetMessageA sampleMsg 0 0 0)
      ∧ (detourGetMessageA modeIdle (fun m => (false, m)) getMessageError
          sampleMsg 0 0 0).ret = 1 := by
  decide

/-- C6, amended: `detourXInputGetState` returns the original's value on every call that
returns, which is every call but the one that faults zeroing through a null `pState`;
`detourPostMessageA/W`, `detourSetCursorPos` and `detourGetCursorPos` return the
original's value whenever they call the original.  `detourGetMessageA/W` and
`detourPeekMessageA/W` always call the original and return `FALSE` when it returned `0`
and `TRUE` for every other result; so their result equals the original's exactly when
the original returned `0` or `1`. -/
theorem upstream_result_propagation (g : ModeFlags) (gamePadState : Ptr)
    (handleMessage : MSG → Bool × MSG)
    (hookedX : Nat → Ptr → XMem → Nat × XMem) (dwUserIndex : Nat) (pState : Ptr) (xmem : XMem)
    (hookedGetA hookedGetW : MSG → Ptr → Nat → Nat → BOOL × MSG)
    (hookedPeekA hookedPeekW : MSG → Ptr → Nat → Nat → Nat → BOOL × MSG)
    (lpMsg : MSG) (hWnd : Ptr) (wMsgFilterMin wMsgFilterMax wRemoveMsg : Nat)
    (hookedPostA hookedPostW : Ptr → Nat → Nat → Int → BOOL) (Msg wParam : Nat) (lParam : Int)
    (hookedSet : Int → Int → BOOL) (X Y : Int) (last : POINT)
    (hookedGet : Ptr → PMem → BOOL × PMem) (lpPoint : Ptr) (pmem : PMem) :
    (detourXInputGetState g gamePadState hookedX dwUserIndex pState xmem).map
          (fun r => r.toReturn)
        = (if pState = 0 ∧ pState ≠ gamePadState ∧ g.g_cameraEnabled = true
                ∧ g.inputBlocked = true ∧ g.controllerControlsCamera = true
            then none else some (hookedX dwUserIndex pState xmem).1)
      ∧ ((detourPostMessageA g hookedPostA hWnd Msg wParam lParam).calls ≠ [] →
          (detourPostMessageA g hookedPostA hWnd Msg wParam lParam).ret
            = hookedPostA hWnd Msg wParam lParam)
      ∧ ((detourPostMessageW g hookedPostW hWnd Msg wParam lParam).calls ≠ [] →
          (detourPostMessageW g hookedPostW hWnd Msg wParam lParam).ret
            = hookedPostW hWnd Msg wParam lParam)
      ∧ ((detourSetCursorPos g hookedSet X Y last).calls ≠ [] →
          (detourSetCursorPos g hookedSet X Y last).ret = hookedSet X Y)
      ∧ ((detourGetCursorPos g hookedGet lpPoint pmem last).calls ≠ [] →
          (detourGetCursorPos g hookedGet lpPoint pmem last).ret = (hookedGet lpPoint pmem).1)
      ∧ (detourGetMessageA g handleMessage hookedGetA lpMsg hWnd wMsgFilterMin
            wMsgFilterMax).ret
        = (if (hookedGetA lpMsg hWnd wMsgFilterMin wMsgFilterMax).1 = 0 then FALSE else TRUE)
      ∧ (detourGetMessageW g handleMessage hookedGetW lpMsg hWnd wMsgFilterMin
            wMsgFilterMax).ret
        = (if (hookedGetW lpMsg hWnd wMsgFilterMin wMsgFilterMax).1 = 0 then FALSE else TRUE)
      ∧ (detourPeekMessageA g handleMessage hookedPeekA lpMsg hWnd wMsgFilterMin
            wMsgFilterMax wRemoveMsg).ret
        = (if (hookedPeekA lpMsg hWnd wMsgFilterMin wMsgFilterMax wRemoveMsg).1 = 0
            then FALSE else TRUE)
      ∧ (detourPeekMessageW g handleMessage hookedPeekW lpMsg hWnd wMsgFilterMin
            wMsgFilterMax wRemoveMsg).ret
        = (if (hookedPeekW lpMsg hWnd wMsgFilterMin wMsgFilterMax wRemoveMsg).1 = 0
            then FALSE else TRUE)
      ∧ ((detourGetMessageA g handleMessage hookedGetA lpMsg hWnd wMsgFilterMin
            wMsgFilterMax).ret = (hookedGetA lpMsg hWnd wMsgFilterMin wMsgFilterMax).1
          ↔ ((hookedGetA lpMsg hWnd wMsgFilterMin wMsgFilterMax).1 = 0
              ∨ (hookedGetA lpMsg hWnd wMsgFilterMin wMsgFilterMax).1 = 1))
      ∧ ((detourPeekMessageA g handleMessage hookedPeekA lpMsg hWnd wMsgFilterMin
            wMsgFilterMax wRemoveMsg).ret
            = (hookedPeekA lpMsg hWnd wMsgFilterMin wMsgFilterMax wRemoveMsg).1
          ↔ ((hookedPeekA lpMsg hWnd wMsgFilterMin wMsgFilterMax wRemoveMsg).1 = 0
              ∨ (hookedPeekA lpMsg hWnd wMsgFilterMin wMsgFilterMax wRemoveMsg).1 = 1))
      ∧ (detourGetMessageA g handleMessage hookedGetA lpMsg hWnd wMsgFilterMin
            wMsgFilterMax).calls.head?
        = some (Call.hookedGetMessageA lpMsg hWnd wMsgFilterMin wMsgFilterMax)
      ∧ (detourGetMessageW g handleMessage hookedGetW lpMsg hWnd wMsgFilterMin
            wMsgFilterMax).calls.head?
        = some (Call.hookedGetMessageW lpMsg hWnd wMsgFilterMin wMsgFilterMax)
      ∧ (detourPeekMessageA g handleMessage hookedPeekA lpMsg hWnd wMsgFilterMin
            wMsgFilterMax wRemoveMsg).calls.head?
        = some (Call.hookedPeekMessageA lpMsg hWnd wMsgFilterMin wMsgFilterMax wRemoveMsg)
      ∧ (detourPeekMessageW g handleMessage hookedPeekW lpMsg hWnd wMsgFilterMin
            wMsgFilterMax wRemoveMsg).calls.head?
        = some (Call.hookedPeekMessageW lpMsg hWnd wMsgFilterMin wMsgFilterMax
            wRemoveMsg) := by
  have norm : ∀ b : BOOL, ((if b = 0 then FALSE else TRUE) = b ↔ (b = 0 ∨ b = 1)) := by
    intro b
    by_cases hb : b = 0
    · simp [hb, FALSE]
    · simp only [hb, if_false, false_or, TRUE]
      exact eq_comm
  have eGA : (detourGetMessageA g handleMessage hookedGetA lpMsg hWnd wMsgFilterMin
        wMsgFilterMax).ret
      = (if (hookedGetA lpMsg hWnd wMsgFilterMin wMsgFilterMax).1 = 0 then FALSE else TRUE) := by
    by_cases h : (hookedGetA lpMsg hWnd wMsgFilterMin wMsgFilterMax).1 = 0 <;>
      simp [detourGetMessageA, h]
  have eGW : (detourGetMessageW g handleMessage hookedGetW lpMsg hWnd wMsgFilterMin
        wMsgFilterMax).ret
      = (if (hookedGetW lpMsg hWnd wMsgFilterMin wMsgFilterMax).1 = 0 then FALSE else TRUE) := by
    by_cases h : (hookedGetW lpMsg hWnd wMsgFilterMin wMsgFilterMax).1 = 0 <;>
      simp [detourGetMessageW, h]
  have ePA : (detourPeekMessageA g handleMessage hookedPeekA lpMsg hWnd wMsgFilterMin
        wMsgFilterMax wRemoveMsg).ret
      = (if (hookedPeekA lpMsg hWnd wMsgFilterMin wMsgFilterMax wRemoveMsg).1 = 0
          then FALSE else TRUE) := by
    by_cases h : (hookedPeekA lpMsg hWnd wMsgFilterMin wMsgFilterMax wRemoveMsg).1 = 0 <;>
      simp [detourPeekMessageA, h]
  have ePW : (detourPeekMessageW g handleMessage hookedPeekW lpMsg hWnd wMsgFilterMin
        wMsgFilterMax wRemoveMsg).ret
      = (if (hookedPeekW lpMsg hWnd wMsgFilterMin wMsgFilterMax wRemoveMsg).1 = 0
          then FALSE else TRUE) := by
    by_cases h : (hookedPeekW lpMsg hWnd wMsgFilterMin wMsgFilterMax wRemoveMsg).1 = 0 <;>
      simp [detourPeekMessageW, h]
  refine ⟨?_, ?_, ?_, ?_, ?_, eGA, eGW, ePA, ePW, ?_, ?_, ?_, ?_, ?_, ?_⟩
  · obtain ⟨cam, blk, ctl, kbm, menu⟩ := g
    by_cases h0 : pState = 0 <;> by_cases hp : pState = gamePadState <;>
      cases cam <;> cases blk <;> cases ctl <;> simp [detourXInputGetState, h0, hp]
  · unfold detourPostMessageA
    split <;> simp
  · unfold detourPostMessageW
    split <;> simp
  · unfold detourSetCursorPos
    split <;> simp
  · unfold detourGetCursorPos
    split
    · split <;> simp
    · simp
  · rw [eGA]; exact norm _
  · rw [ePA]; exact norm _
  · by_cases h : (hookedGetA lpMsg hWnd wMsgFilterMin wMsgFilterMax).1 = 0 <;>
      simp [detourGetMessageA, h]
  · by_cases h : (hookedGetW lpMsg hWnd wMsgFilterMin wMsgFilterMax).1 = 0 <;>
      simp [detourGetMessageW, h]
  · by_cases h : (hookedPeekA lpMsg hWnd wMsgFilterMin wMsgFilterMax wRemoveMsg).1 = 0 <;>
      simp [detourPeekMessageA, h]
  · by_cases h : (hookedPeekW lpMsg hWnd wMsgFilterMin wMsgFilterMax wRemoveMsg).1 = 0 <;>
      simp [detourPeekMessageW, h]

/-- C7 fails as stated: with input not blocked but the menu visible, a posted
`WM_MOUSEMOVE` is not forwarded; the original would have failed, the detour returns
`TRUE`. -/
theorem postMessage_menu_visible_not_forwarded :
    modeMenuOnly.inputBlocked = false
      ∧ postMessageFails 0x1A2B WM_MOUSEMOVE 0 0 = FALSE
      ∧ detourPostMessageA modeMenuOnly postMessageFails 0x1A2B WM_MOUSEMOVE 0 0
        = { ret := TRUE, calls := [] }
      ∧ detourPostMessageW modeMenuOnly postMessageFails 0x1A2B WM_MOUSEMOVE 0 0
        = { ret := TRUE, calls := [] } := by
  decide

/-- C7, amended: when input is not blocked and the menu is not visible, a posted
`WM_MOUSEMOVE` is forwarded by `detourPostMessageA` and `detourPostMessageW` to the
original, once and with the same arguments, and the original's result is returned. -/
theorem postMessage_forwards_when_unblocked (g : ModeFlags)
    (hookedA hookedW : Ptr → Nat → Nat → Int → BOOL) (hWnd : Ptr) (wParam : Nat) (lParam : Int)
    (hb : g.inputBlocked = false) (hm : g.isMainMenuVisible = false) :
    detourPostMessageA g hookedA hWnd WM_MOUSEMOVE wParam lParam
        = { ret := hookedA hWnd WM_MOUSEMOVE wParam lParam,
            calls := [Call.hookedPostMessageA hWnd WM_MOUSEMOVE wParam lParam] }
      ∧ detourPostMessageW g hookedW hWnd WM_MOUSEMOVE wParam lParam
        = { ret := hookedW hWnd WM_MOUSEMOVE wParam lParam,
            calls := [Call.hookedPostMessageW hWnd WM_MOUSEMOVE wParam lParam] } := by
  simp [detourPostMessageA, detourPostMessageW, hb, hm]

/-- C7 amended, at a concrete input: idle mode, an original that fails. -/
theorem postMessage_forwards_when_unblocked_witness :
    modeIdle.inputBlocked = false ∧ modeIdle.isMainMenuVisible = false
      ∧ detourPostMessageA modeIdle postMessageFails 0x1A2B WM_MOUSEMOVE 3 4
        = { ret := FALSE, calls := [Call.hookedPostMessageA 0x1A2B WM_MOUSEMOVE 3 4] } :=
  ⟨rfl, rfl,
    (postMessage_forwards_when_unblocked modeIdle postMessageFails postMessageSucceeds
      0x1A2B 3 4 rfl rfl).1⟩

/-- C8: when the suppression condition is false, `detourGetCursorPos` calls the
original exactly once with the caller's pointer, returns its result, leaves memory as
the original left it, and leaves the stored position unchanged, whatever that position
is, one written by an earlier suppressed `detourSetCursorPos` included. -/
theorem getCursorPos_forwards_when_unsuppressed (g : ModeFlags)
    (hookedGet : Ptr → PMem → BOOL × PMem) (lpPoint : Ptr) (mem : PMem) (last : POINT)
    (h : suppressKeyboardMouse g = false) :
    (detourGetCursorPos g hookedGet lpPoint mem last).calls
        = [Call.hookedGetCursorPos lpPoint]
      ∧ (detourGetCursorPos g hookedGet lpPoint mem last).ret = (hookedGet lpPoint mem).1
      ∧ (detourGetCursorPos g hookedGet lpPoint mem last).mem = (hookedGet lpPoint mem).2
      ∧ (detourGetCursorPos g hookedGet lpPoint mem last).lastCursorPositionWhenBlocked = last
      ∧ (∀ (g₀ : ModeFlags) (hookedSet : Int → Int → BOOL) (X Y : Int),
          suppressKeyboardMouse g₀ = true →
          (detourGetCursorPos g hookedGet lpPoint mem
              (detourSetCursorPos g₀ hookedSet X Y last).lastCursorPositionWhenBlocked).mem
            = (hookedGet lpPoint mem).2
          ∧ (detourGetCursorPos g hookedGet lpPoint mem
              (detourSetCursorPos g₀ hookedSet X Y last).lastCursorPositionWhenBlocked
              ).lastCursorPositionWhenBlocked = { x := X, y := Y }) := by
  simp only [suppressKeyboardMouse] at h
  refine ⟨?_, ?_, ?_, ?_, ?_⟩
  · simp [detourGetCursorPos, h]
  · simp [detourGetCursorPos, h]
  · simp [detourGetCursorPos, h]
  · simp [detourGetCursorPos, h]
  · intro g₀ hookedSet X Y h₀
    simp only [suppressKeyboardMouse] at h₀
    simp [detourGetCursorPos, detourSetCursorPos, h, h₀]

/-- C8 at a concrete input: a position `(9, 9)` stored earlier, idle mode, an original
that writes `(300, 200)` through the pointer `64`. -/
theorem getCursorPos_forwards_when_unsuppressed_witness :
    suppressKeyboardMouse modeIdle = false
      ∧ (detourGetCursorPos modeIdle
          (fun p m => (1, Function.update m p ⟨300, 200⟩)) 64 (fun _ => ⟨0, 0⟩) ⟨9, 9⟩).mem 64
        = ⟨300, 200⟩ :=
  ⟨by decide,
    by
      rw [(getCursorPos_forwards_when_unsuppressed modeIdle
        (fun p m => (1, Function.update m p ⟨300, 200⟩)) 64 (fun _ => ⟨0, 0⟩) ⟨9, 9⟩
        (by decide)).2.2.1]
      simp⟩

/-- C10: `processMessage` does not look at its removal flag, so a message is classified
and neutralized in the same way whether or not it was removed from the queue.  In
particular `detourPeekMessageA` and `detourPeekMessageW` treat a retrieved message as
`processMessage` does under either value of the flag, whatever `wRemoveMsg` holds. -/
theorem processMessage_ignores_removeIfRequired (g : ModeFlags)
    (handleMessage : MSG → Bool × MSG)
    (hookedPeekA hookedPeekW : MSG → Ptr → Nat → Nat → Nat → BOOL × MSG)
    (lpMsg : MSG) (hWnd : Ptr) (wMsgFilterMin wMsgFilterMax wRemoveMsg : Nat) :
    processMessage g handleMessage lpMsg true = processMessage g handleMessage lpMsg false
      ∧ (∀ b : Bool,
          detourPeekMessageA g handleMessage hookedPeekA lpMsg hWnd wMsgFilterMin wMsgFilterMax
              wRemoveMsg
            = (if (hookedPeekA lpMsg hWnd wMsgFilterMin wMsgFilterMax wRemoveMsg).1 = 0
                then
                  { ret := FALSE
                    lpMsg := (hookedPeekA lpMsg hWnd wMsgFilterMin wMsgFilterMax wRemoveMsg).2
                    calls := [Call.hookedPeekMessageA lpMsg hWnd wMsgFilterMin wMsgFilterMax
                                wRemoveMsg] }
                else
                  { ret := TRUE
                    lpMsg := (processMessage g handleMessage
                      (hookedPeekA lpMsg hWnd wMsgFilterMin wMsgFilterMax wRemoveMsg).2 b).1
                    calls := Call.hookedPeekMessageA lpMsg hWnd wMsgFilterMin wMsgFilterMax
                        wRemoveMsg
                      :: (processMessage g handleMessage
                        (hookedPeekA lpMsg hWnd wMsgFilterMin wMsgFilterMax wRemoveMsg).2
                        b).2 }))
      ∧ (∀ b : Bool,
          detourPeekMessageW g handleMessage hookedPeekW lpMsg hWnd wMsgFilterMin wMsgFilterMax
              wRemoveMsg
            = (if (hookedPeekW lpMsg hWnd wMsgFilterMin wMsgFilterMax wRemoveMsg).1 = 0
                then
                  { ret := FALSE
                    lpMsg := (hookedPeekW lpMsg hWnd wMsgFilterMin wMsgFilterMax wRemoveMsg).2
                    calls := [Call.hookedPeekMessageW lpMsg hWnd wMsgFilterMin wMsgFilterMax
                                wRemoveMsg] }
                else
                  { ret := TRUE
                    lpMsg := (processMessage g handleMessage
                      (hookedPeekW lpMsg hWnd wMsgFilterMin wMsgFilterMax wRemoveMsg).2 b).1
                    calls := Call.hookedPeekMessageW lpMsg hWnd wMsgFilterMin wMsgFilterMax
                        wRemoveMsg
                      :: (processMessage g handleMessage
                        (hookedPeekW lpMsg hWnd wMsgFilterMin wMsgFilterMax wRemoveMsg).2
                        b).2 })) := by
  have indep : ∀ (m : MSG) (b c : Bool),
      processMessage g handleMessage m b = processMessage g handleMessage m c := by
    intro m b c
    rfl
  refine ⟨indep _ _ _, ?_, ?_⟩
  · intro b
    by_cases h : (hookedPeekA lpMsg hWnd wMsgFilterMin wMsgFilterMax wRemoveMsg).1 = 0
    · simp [detourPeekMessageA, h]
    · simp only [detourPeekMessageA, h, if_false, beq_iff_eq]
      rw [indep _ ((wRemoveMsg &&& PM_REMOVE) != 0) b]
  · intro b
    by_cases h : (hookedPeekW lpMsg hWnd wMsgFilterMin wMsgFilterMax wRemoveMsg).1 = 0
    · simp [detourPeekMessageW, h]
    · simp only [detourPeekMessageW, h, if_false, beq_iff_eq]
      rw [indep _ ((wRemoveMsg &&& PM_REMOVE) != 0) b]

/-- An optional log line is never a MinHook call. -/
theorem filter_isMinHook_logError (c : Prop) [Decidable c] (line : String) :
    List.filter SetupCall.isMinHook (if c then [SetupCall.logError line] else []) = [] := by
  split <;> rfl

/-- The closing log line of `setInputHooks` is never a MinHook call. -/
theorem filter_isMinHook_closing (c : Prop) [Decidable c] (a b : String) :
    List.filter SetupCall.isMinHook
      (if c then [SetupCall.logLine a] else [SetupCall.logError b]) = [] := by
  split <;> rfl

/-- Membership in the closing log line of `setInputHooks`. -/
theorem mem_closing_iff (c : Prop) [Decidable c] (x : SetupCall) (a b : String) :
    x ∈ (if c then [SetupCall.logLine a] else [SetupCall.logError b])
      ↔ (c ∧ x = SetupCall.logLine a) ∨ (¬ c ∧ x = SetupCall.logError b) := by
  by_cases hc : c <;> simp [hc]

/-- C9: whatever the nine installations and the enable-all call return, the MinHook
calls of `setInputHooks` are the nine installations, each once and in the fixed order,
followed by one enable-all call.  The error line of an installation is logged exactly
when that installation did not return `MH_OK`, and the line "Enabling hooks failed." is
logged exactly when enable-all did not return `MH_OK`; that line is none of the nine. -/
theorem setInputHooks_attempts_all (createHookApi : String → String → MH_STATUS)
    (enableHook : MH_STATUS) :
    (setInputHooks createHookApi enableHook).filter SetupCall.isMinHook
        = hookTable.map (fun h => SetupCall.MH_CreateHookApi h.1 h.2.1 h.2.2.1)
          ++ [SetupCall.MH_EnableHookAll]
      ∧ (∀ h ∈ hookTable,
          (SetupCall.logError h.2.2.2 ∈ setInputHooks createHookApi enableHook
            ↔ createHookApi h.1 h.2.1 ≠ MH_OK))
      ∧ (SetupCall.logError "Enabling hooks failed." ∈ setInputHooks createHookApi enableHook
          ↔ enableHook ≠ MH_OK)
      ∧ (∀ h ∈ hookTable, h.2.2.2 ≠ "Enabling hooks failed.")
      ∧ hookTable.length = 9
      ∧ (hookTable.map (fun h => h.2.2.2)).Nodup := by
  refine ⟨?_, ?_, ?_, ?_, ?_, ?_⟩
  · simp only [setInputHooks, List.filter_append, filter_isMinHook_logError,
      filter_isMinHook_closing]
    rfl
  · simp only [hookTable, List.mem_cons, List.mem_singleton, forall_eq_or_imp, forall_eq,
      List.not_mem_nil, false_implies, implies_true, and_true]
    simp [setInputHooks, mem_closing_iff]
  · simp [setInputHooks, mem_closing_iff]
  · decide
  · rfl
  · decide

end IGCS.InputHooker
